import Mathlib

/-!
Verification of the token core of hpegl-provider-lib.

This file embeds, as executable Lean definitions, the token-exchange
machinery of the repository:

* `pkg/token/token-util/token-util.go` — retry loop (`DoRetries`),
  status classification (`isStatusRetryable`), HTTP-status-to-error
  mapping (`ManageHTTPErrorCodes`), offline JWT decoding
  (`DecodeAccessToken`, `parseJWT`);
* `pkg/token/issuertoken/issuertoken.go` — form-encoded OAuth2 token
  exchange (`generateParamsAndURL`, `createRequest`, response handling);
* `pkg/token/identitytoken` — JSON tenant-credential token exchange;
* `pkg/token/httpclient/httpclient.go` — `Client`, `New`, and the
  protocol dispatch in `Client.GenerateToken`;
* the token-handler channel protocol described in the repository README.

Theorems about these definitions settle the specification's claims.
-/

namespace HpeglToken

/-! ## Error model

The repository's `pkg/token/errors` package is referenced by the token
core (constructors `MakeErrInternalError`, `MakeErrBadRequest`,
`MakeErrUnauthorized`, `MakeErrForbidden` with an `ErrorResponse`
payload).  We represent a Go `error` value in the token core as a tagged
value carrying the constructor's arguments.
-/

/-- `errors.ErrorResponse` — the payload passed to the error constructors
(fields as at the call sites in `token-util.go`). -/
structure ErrorResponse where
  ErrorCode : String
  Message : String
  deriving DecidableEq, Repr

/-- A Go `error` value as produced by the token core: either one of the
typed errors of the `errors` package, or a plain error from the
standard library (transport, body read, JSON decode) or `fmt.Errorf`. -/
inductive GLError where
  | internalError (errorCode message : String)
  | badRequest (errorCode message : String)
  | unauthorized (clientID : String)
  | forbidden (clientID : String)
  | transportError (msg : String)
  | ioError (msg : String)
  | jsonError (msg : String)
  | plainError (msg : String)
  deriving DecidableEq, Repr

/-- Modelled from the spec: the `errors` package itself is not under the
sources given, only its call sites are.  Per the spec's error taxonomy,
`MakeErrInternalError` builds an InternalError from an `ErrorResponse`. -/
def MakeErrInternalError (e : ErrorResponse) : GLError :=
  .internalError e.ErrorCode e.Message

/-- Modelled from the spec: `MakeErrBadRequest` of the missing `errors`
package builds a BadRequest error from an `ErrorResponse`. -/
def MakeErrBadRequest (e : ErrorResponse) : GLError :=
  .badRequest e.ErrorCode e.Message

/-- Modelled from the spec: `MakeErrUnauthorized` of the missing `errors`
package builds an Unauthorized error naming the offending client id. -/
def MakeErrUnauthorized (clientID : String) : GLError :=
  .unauthorized clientID

/-- Modelled from the spec: `MakeErrForbidden` of the missing `errors`
package builds a Forbidden error naming the offending client id. -/
def MakeErrForbidden (clientID : String) : GLError :=
  .forbidden clientID

/-! ## HTTP responses and the retry loop (`token-util.go`) -/

deriving instance DecidableEq for Except

/-- An `*http.Response` as consumed by the token core: the status code
and the outcome of reading its body (`io.ReadAll` can fail, hence
`Except`). -/
structure HTTPResponse where
  StatusCode : Int
  Body : Except String String
  deriving DecidableEq, Repr

/-- `isStatusRetryable` (token-util.go:179-186): exactly
`http.StatusInternalServerError` (500), `http.StatusTooManyRequests`
(429) and `http.StatusBadGateway` (502) are retryable. -/
def isStatusRetryable (statusCode : Int) : Bool :=
  statusCode == 500 || statusCode == 429 || statusCode == 502

/-- The seconds slept by `sleepAndDecrementRetries` (token-util.go:135-140):
`time.Sleep(5 * time.Second)`. -/
def retrySleepSeconds : Nat := 5

/-- `sleepAndDecrementRetries` returns `retries - 1` (after sleeping 5s;
the sleep itself is accounted separately in `DoRetriesAux`). -/
def sleepAndDecrementRetries (retries : Nat) : Nat := retries - 1

/-- A context in the model: the tightest timeout (in seconds) active on
it, if any. `context.WithTimeout` tightens it. -/
structure Ctx where
  timeoutSeconds : Option Nat
  deriving DecidableEq, Repr

/-- `context.Background()`: no deadline. -/
def backgroundCtx : Ctx := ⟨none⟩

/-- `context.WithTimeout(ctx, secs)`: the child's effective deadline is
the sooner of the parent's and the new one. -/
def withTimeout (c : Ctx) (secs : Nat) : Ctx :=
  ⟨some (match c.timeoutSeconds with
         | none => secs
         | some t => min t secs)⟩

/-- `createContextWithTimeout` (token-util.go:127-133): a fresh
3-second-timeout sub-context of the caller's context, or of a background
context when the caller supplied none (`ctx == nil`). -/
def createContextWithTimeout (ctx : Option Ctx) : Ctx :=
  match ctx with
  | none => withTimeout backgroundCtx 3
  | some c => withTimeout c 3

/-- The observable outcome of one invocation of the `call` closure
passed to `DoRetries` (token-util.go:104): either the per-attempt
request context ended with `context.DeadlineExceeded` (checked first,
token-util.go:107), or `call` returned a non-nil error of another kind,
or a response was received. -/
inductive AttemptOutcome where
  | deadlineExceeded
  | transportError (msg : String)
  | response (resp : HTTPResponse)
  deriving DecidableEq, Repr

/-- The loop body of `DoRetries` (token-util.go:89-125).  `call i` is
the outcome of the `i`-th invocation of the `call` closure.  Returns the
final result together with the number of HTTP attempts made and the
total seconds slept in `sleepAndDecrementRetries`.

* budget `0`: return the `ErrGenerateTokenRetryLimitExceeded`
  InternalError (token-util.go:91-95);
* context deadline exceeded: sleep 5s, decrement, retry
  (token-util.go:107-111);
* any other error: return it at once (token-util.go:114-116);
* response with a non-retryable status: return the response
  (token-util.go:119-121);
* retryable status: sleep 5s, decrement, retry (token-util.go:123). -/
def DoRetriesAux (call : Nat → AttemptOutcome) :
    Nat → Nat → Except GLError HTTPResponse × Nat × Nat
  | _, 0 =>
    (.error (MakeErrInternalError
      ⟨"ErrGenerateTokenRetryLimitExceeded", "Retry limit exceeded"⟩), 0, 0)
  | i, retries + 1 =>
    match call i with
    | .deadlineExceeded =>
      let r := DoRetriesAux call (i + 1) retries
      (r.1, r.2.1 + 1, r.2.2 + retrySleepSeconds)
    | .transportError msg => (.error (GLError.transportError msg), 1, 0)
    | .response resp =>
      if !isStatusRetryable resp.StatusCode then (.ok resp, 1, 0)
      else
        let r := DoRetriesAux call (i + 1) retries
        (r.1, r.2.1 + 1, r.2.2 + retrySleepSeconds)

/-- `DoRetries` (token-util.go:79-125), starting at the first attempt. -/
def DoRetries (call : Nat → AttemptOutcome) (retries : Nat) :
    Except GLError HTTPResponse × Nat × Nat :=
  DoRetriesAux call 0 retries

/-- `retryLimit` (issuertoken.go:18-20 and identitytoken): 3. -/
def retryLimit : Nat := 3

/-- A body that read successfully as `s`. -/
def okBody (s : String) : Except String String := .ok s

/-- Attempt schedule delivering HTTP 500 twice and then HTTP 200. -/
def attempts500x2then200 (body : String) : Nat → AttemptOutcome :=
  fun i => if i < 2 then .response ⟨500, okBody body⟩
           else .response ⟨200, okBody body⟩

/-- Attempt schedule delivering HTTP 500 on every attempt. -/
def attemptsAlways500 (body : String) : Nat → AttemptOutcome :=
  fun _ => .response ⟨500, okBody body⟩

/-- C1: the retry budget is fixed at `retryLimit = 3`.  An exchange whose
responses are 500, 500, 200 succeeds after exactly 3 HTTP attempts (and
10 seconds of sleep); an exchange answered 500 on all attempts makes
exactly 3 attempts and returns the InternalError with error code
`ErrGenerateTokenRetryLimitExceeded` and message "Retry limit exceeded". -/
theorem retry_budget_is_three :
    retryLimit = 3 ∧
    DoRetries (attempts500x2then200 "b") retryLimit =
      (.ok ⟨200, okBody "b"⟩, 3, 10) ∧
    DoRetries (attemptsAlways500 "b") retryLimit =
      (.error (GLError.internalError
        "ErrGenerateTokenRetryLimitExceeded" "Retry limit exceeded"), 3, 15) := by
  refine ⟨rfl, ?_, ?_⟩ <;> rfl

/-- Attempt schedule delivering HTTP 503 on every attempt. -/
def attemptsAlways503 (body : String) : Nat → AttemptOutcome :=
  fun _ => .response ⟨503, okBody body⟩

/-- C2 counterexample: HTTP 503 is a 5xx server-error status, yet
`isStatusRetryable` rejects it and `DoRetries` returns after a single
attempt with no sleep and no InternalError — the 503 response is handed
back as a terminal outcome instead of being retried. -/
theorem status_503_not_retried :
    isStatusRetryable 503 = false ∧
    DoRetries (attemptsAlways503 "b") retryLimit =
      (.ok ⟨503, okBody "b"⟩, 1, 0) := by
  exact ⟨rfl, rfl⟩

/-- C2 amended: exactly the statuses 500, 429 and 502 are retryable; an
attempt answered with such a status sleeps the fixed 5 seconds,
decrements the budget and retries, and once the budget is exhausted the
loop yields the retry-limit InternalError. -/
theorem retryable_statuses_amended :
    (∀ s : Int, isStatusRetryable s = true ↔ (s = 500 ∨ s = 429 ∨ s = 502)) ∧
    (∀ (call : Nat → AttemptOutcome) (i r : Nat) (resp : HTTPResponse),
      call i = .response resp → isStatusRetryable resp.StatusCode = true →
      DoRetriesAux call i (r + 1) =
        ((DoRetriesAux call (i + 1) r).1,
         (DoRetriesAux call (i + 1) r).2.1 + 1,
         (DoRetriesAux call (i + 1) r).2.2 + retrySleepSeconds)) ∧
    (∀ (call : Nat → AttemptOutcome) (i : Nat),
      DoRetriesAux call i 0 =
        (.error (GLError.internalError
          "ErrGenerateTokenRetryLimitExceeded" "Retry limit exceeded"), 0, 0)) := by
  refine ⟨?_, ?_, ?_⟩
  · intro s
    unfold isStatusRetryable
    simp only [Bool.or_eq_true, beq_iff_eq, or_assoc]
  · intro call i r resp hcall hret
    simp only [DoRetriesAux, hcall, hret, Bool.not_true, Bool.false_eq_true, if_false]
  · intro call i
    rfl

/-- Closed witness for `retryable_statuses_amended`: 502 is retryable and
a 502 attempt at budget 2 performs the sleep-decrement-retry step. -/
theorem retryable_statuses_amended_witness :
    isStatusRetryable 502 = true ∧
    DoRetriesAux (fun _ => .response ⟨502, okBody "b"⟩) 0 2 =
      ((DoRetriesAux (fun _ => .response ⟨502, okBody "b"⟩) 1 1).1,
       (DoRetriesAux (fun _ => .response ⟨502, okBody "b"⟩) 1 1).2.1 + 1,
       (DoRetriesAux (fun _ => .response ⟨502, okBody "b"⟩) 1 1).2.2 + retrySleepSeconds) := by
  refine ⟨(retryable_statuses_amended.1 502).mpr (Or.inr (Or.inr rfl)), ?_⟩
  exact retryable_statuses_amended.2.1 (fun _ => .response ⟨502, okBody "b"⟩) 0 1
    ⟨502, okBody "b"⟩ rfl rfl

/-- C3: each attempt runs under a fresh 3-second sub-context of the
caller's context (or of a background context when none is supplied); an
attempt whose request context ends with deadline-exceeded is retried
after the fixed 5-second sleep with the budget decremented, while an
attempt failing with any other transport error returns that error
immediately as the final result, after exactly that one attempt. -/
theorem deadline_retried_other_errors_final :
    createContextWithTimeout none = withTimeout backgroundCtx 3 ∧
    (∀ c : Ctx, createContextWithTimeout (some c) = withTimeout c 3) ∧
    (∀ (call : Nat → AttemptOutcome) (i r : Nat),
      call i = .deadlineExceeded →
      DoRetriesAux call i (r + 1) =
        ((DoRetriesAux call (i + 1) r).1,
         (DoRetriesAux call (i + 1) r).2.1 + 1,
         (DoRetriesAux call (i + 1) r).2.2 + retrySleepSeconds)) ∧
    (∀ (call : Nat → AttemptOutcome) (i r : Nat) (msg : String),
      call i = .transportError msg →
      DoRetriesAux call i (r + 1) = (.error (GLError.transportError msg), 1, 0)) := by
  refine ⟨rfl, fun _ => rfl, ?_, ?_⟩
  · intro call i r hcall
    simp only [DoRetriesAux, hcall]
  · intro call i r msg hcall
    simp only [DoRetriesAux, hcall]

/-- Closed witness for `deadline_retried_other_errors_final`: a schedule
whose first attempt hits the deadline and whose second fails with a
connection error makes exactly 2 attempts, sleeps 5 seconds, and returns
the connection error. -/
theorem deadline_retried_other_errors_final_witness :
    DoRetriesAux (fun i => if i == 0 then .deadlineExceeded else .transportError "conn refused") 0 3 =
      ((DoRetriesAux (fun i => if i == 0 then .deadlineExceeded else .transportError "conn refused") 1 2).1,
       (DoRetriesAux (fun i => if i == 0 then .deadlineExceeded else .transportError "conn refused") 1 2).2.1 + 1,
       (DoRetriesAux (fun i => if i == 0 then .deadlineExceeded else .transportError "conn refused") 1 2).2.2 + retrySleepSeconds) ∧
    DoRetriesAux (fun i => if i == 0 then .deadlineExceeded else .transportError "conn refused") 1 2 =
      (.error (GLError.transportError "conn refused"), 1, 0) := by
  constructor
  · exact deadline_retried_other_errors_final.2.2.1
      (fun i => if i == 0 then .deadlineExceeded else .transportError "conn refused") 0 2 rfl
  · exact deadline_retried_other_errors_final.2.2.2
      (fun i => if i == 0 then .deadlineExceeded else .transportError "conn refused") 1 1
      "conn refused" rfl

/-! ## HTTP-status-to-error mapping (`token-util.go:142-177`) -/

/-- `ManageHTTPErrorCodes`: `nil` on 200; on 400, read the body and wrap
it in a BadRequest (a body-read failure is returned as that failure); on
403 Forbidden; on 401 Unauthorized; otherwise an InternalError whose
message carries the raw status code. -/
def ManageHTTPErrorCodes (resp : HTTPResponse) (clientID : String) : Option GLError :=
  if resp.StatusCode == 200 then none
  else if resp.StatusCode == 400 then
    match resp.Body with
    | .error e => some (GLError.ioError e)
    | .ok body =>
      some (MakeErrBadRequest
        ⟨"ErrGenerateTokenBadRequest", "Bad request: " ++ body⟩)
  else if resp.StatusCode == 403 then some (MakeErrForbidden clientID)
  else if resp.StatusCode == 401 then some (MakeErrUnauthorized clientID)
  else
    some (MakeErrInternalError
      ⟨"ErrGenerateTokenUnexpectedResponseCode",
       "Unexpected status code " ++ toString resp.StatusCode⟩)

/-- C4: the status-to-error mapping — 200 yields no error; 400 yields a
BadRequest whose message contains the response body text; 401 yields
Unauthorized; 403 yields Forbidden; any status outside
{200, 400, 401, 403} yields an InternalError whose message carries that
status code as a substring. -/
theorem manage_http_error_codes_mapping :
    (∀ (b : Except String String) (cid : String),
      ManageHTTPErrorCodes ⟨200, b⟩ cid = none) ∧
    (∀ (body cid : String),
      ManageHTTPErrorCodes ⟨400, okBody body⟩ cid =
        some (GLError.badRequest "ErrGenerateTokenBadRequest"
          ("Bad request: " ++ body)) ∧
      ("Bad request: " ++ body) = "Bad request: " ++ body ++ "") ∧
    (∀ (b : Except String String) (cid : String),
      ManageHTTPErrorCodes ⟨401, b⟩ cid = some (GLError.unauthorized cid)) ∧
    (∀ (b : Except String String) (cid : String),
      ManageHTTPErrorCodes ⟨403, b⟩ cid = some (GLError.forbidden cid)) ∧
    (∀ (s : Int) (b : Except String String) (cid : String),
      s ≠ 200 → s ≠ 400 → s ≠ 401 → s ≠ 403 →
      ManageHTTPErrorCodes ⟨s, b⟩ cid =
        some (GLError.internalError "ErrGenerateTokenUnexpectedResponseCode"
          ("Unexpected status code " ++ toString s)) ∧
      ("Unexpected status code " ++ toString s) =
        "Unexpected status code " ++ toString s ++ "") := by
  refine ⟨fun _ _ => rfl, fun body cid => ⟨rfl, by simp⟩, ?_, ?_, ?_⟩
  · intro b cid
    cases b <;> rfl
  · intro b cid
    cases b <;> rfl
  · intro s b cid h200 h400 h401 h403
    refine ⟨?_, by simp⟩
    unfold ManageHTTPErrorCodes
    simp only [beq_iff_eq]
    rw [if_neg h200, if_neg h400, if_neg h403, if_neg h401]
    rfl

/-- Closed witness for `manage_http_error_codes_mapping`: the arbitrary
unmapped status 418 yields the InternalError mentioning 418. -/
theorem manage_http_error_codes_mapping_witness :
    ManageHTTPErrorCodes ⟨418, okBody "teapot"⟩ "cid" =
      some (GLError.internalError "ErrGenerateTokenUnexpectedResponseCode"
        "Unexpected status code 418") := by
  exact (manage_http_error_codes_mapping.2.2.2.2 418 (okBody "teapot") "cid"
    (by decide) (by decide) (by decide) (by decide)).1

/-! ## Token exchange strategies

`pkg/token/issuertoken` (form-encoded OAuth2, `iamVersion`-dependent)
and `pkg/token/identitytoken` (JSON tenant credentials), and the
dispatch between them in `pkg/token/httpclient`.
-/

/-- `provider.IAMVersionGLCS` (provider.go:20). -/
def IAMVersionGLCS : String := "glcs"

/-- `provider.IAMVersionGLP` (provider.go:22). -/
def IAMVersionGLP : String := "glp"

/-- `identitytoken.GenerateTokenInput` — the JSON body of the
tenant-credential exchange. -/
structure GenerateTokenInput where
  TenantID : String
  ClientID : String
  ClientSecret : String
  GrantType : String
  deriving DecidableEq, Repr

/-- The body of an outgoing token-exchange request: either the
form-encoded parameter list of the issuer-token variant (in the order
the Go code `Add`s them) or the JSON struct of the identity-token
variant. -/
inductive RequestBody where
  | formEncoded (params : List (String × String))
  | jsonTenant (input : GenerateTokenInput)
  deriving DecidableEq, Repr

/-- An outgoing `*http.Request` at the level the claims speak about:
method, URL, Content-Type header and body. -/
structure TokenRequest where
  method : String
  url : String
  contentType : String
  body : RequestBody
  deriving DecidableEq, Repr

/-- `issuertoken.generateParamsAndURL` (issuertoken.go:113-136): common
parameters `client_id`, `client_secret`, `grant_type=client_credentials`;
for `"glcs"` additionally `scope=hpe-tenant` with URL
`<identityServiceURL>/v1/token`; for `"glp"` the identity URL itself;
any other version is the error `invalid IAM version`. -/
def generateParamsAndURL (clientID clientSecret identityServiceURL iamVersion : String) :
    Except String (List (String × String) × String) :=
  let params := [("client_id", clientID), ("client_secret", clientSecret),
                 ("grant_type", "client_credentials")]
  if iamVersion == IAMVersionGLCS then
    .ok (params ++ [("scope", "hpe-tenant")], identityServiceURL ++ "/v1/token")
  else if iamVersion == IAMVersionGLP then
    .ok (params, identityServiceURL)
  else
    .error "invalid IAM version"

/-- `issuertoken.createRequest` (issuertoken.go:102-110): POST the
form-encoded parameters to the client URL with Content-Type
`application/x-www-form-urlencoded`. -/
def createRequest (params : List (String × String)) (clientURL : String) : TokenRequest :=
  { method := "POST", url := clientURL,
    contentType := "application/x-www-form-urlencoded",
    body := .formEncoded params }

/-- The request built by `identitytoken.GenerateToken` (part of the
repository outside `src/pkg`, given in the sources as the identitytoken
package): POST the JSON `GenerateTokenInput` with grant type
`client_credentials` to `<identityServiceURL>/v1/token` with
Content-Type `application/json`. -/
def identityRequest (tenantID clientID clientSecret identityServiceURL : String) :
    TokenRequest :=
  { method := "POST", url := identityServiceURL ++ "/v1/token",
    contentType := "application/json",
    body := .jsonTenant ⟨tenantID, clientID, clientSecret, "client_credentials"⟩ }

/-- `httpclient.Client` (httpclient.go:18-23).  `iamInsecure` stands for
the transport choice made by `createHttpClient`. -/
structure Client where
  passedInToken : String
  identityServiceURL : String
  iamInsecure : Bool
  vendedServiceClient : Bool
  deriving DecidableEq, Repr

/-- `strings.TrimRight(identityServiceURL, "/")` as used by `New`:
remove every trailing `'/'`. -/
def trimRightSlashes (s : String) : String :=
  ⟨(s.data.reverse.dropWhile (· == '/')).reverse⟩

/-- `httpclient.New` (httpclient.go:26-35): construction always
succeeds; it strips trailing slashes from the identity URL and stores
the flags.  No IAM-version validation happens here — `New` does not even
receive the IAM version. -/
def New (identityServiceURL : String) (iamInsecure vendedServiceClient : Bool)
    (passedInToken : String) : Client :=
  { passedInToken := passedInToken,
    identityServiceURL := trimRightSlashes identityServiceURL,
    iamInsecure := iamInsecure,
    vendedServiceClient := vendedServiceClient }

/-- What a call to `Client.GenerateToken` does before any HTTP traffic:
return the passed-in token, fail before issuing a request, or issue a
first HTTP request. -/
inductive CallPhase where
  | returnsPassedToken (token : String)
  | failsBeforeRequest (errMsg : String)
  | issuesRequest (req : TokenRequest)
  deriving DecidableEq, Repr

/-- The dispatch of `Client.GenerateToken` (httpclient.go:57-74) down to
the first HTTP request: with a passed-in token, return it; otherwise a
vended service client runs `issuertoken.GenerateToken`, which calls
`generateParamsAndURL` and fails before any request on an invalid IAM
version (issuertoken.go:38-41); a non-vended client runs
`identitytoken.GenerateToken`, which never consults the IAM version. -/
def ClientGenerateTokenPhase (c : Client)
    (tenantID clientID clientSecret iamVersion : String) : CallPhase :=
  if c.passedInToken == "" then
    if c.vendedServiceClient then
      match generateParamsAndURL clientID clientSecret c.identityServiceURL iamVersion with
      | .error e => .failsBeforeRequest e
      | .ok (params, clientURL) => .issuesRequest (createRequest params clientURL)
    else
      .issuesRequest (identityRequest tenantID clientID clientSecret c.identityServiceURL)
  else
    .returnsPassedToken c.passedInToken

/-- The two wire protocols of the spec. -/
inductive WireProtocol where
  | jsonTenantCredential
  | formEncodedOAuth2
  deriving DecidableEq, Repr

/-- Which wire protocol a request uses, read off its body encoding. -/
def requestProtocol (req : TokenRequest) : WireProtocol :=
  match req.body with
  | .formEncoded _ => .formEncodedOAuth2
  | .jsonTenant _ => .jsonTenantCredential

/-- C5 counterexample: with the same recognized IAM version `"glcs"`,
flipping only the vended-service-client boolean switches the wire
protocol between JSON tenant-credential (`false`) and form-encoded
OAuth2 (`true`) — so the boolean, not the IAM version, selects the wire
protocol, and it does not merely pick an OAuth2 sub-case. -/
theorem protocol_selected_by_vended_flag_not_iam_version :
    ClientGenerateTokenPhase ⟨"", "https://idp.example", false, false⟩
        "t1" "c1" "s1" "glcs" =
      .issuesRequest (identityRequest "t1" "c1" "s1" "https://idp.example") ∧
    requestProtocol (identityRequest "t1" "c1" "s1" "https://idp.example") =
      .jsonTenantCredential ∧
    ClientGenerateTokenPhase ⟨"", "https://idp.example", false, true⟩
        "t1" "c1" "s1" "glcs" =
      .issuesRequest (createRequest
        [("client_id", "c1"), ("client_secret", "s1"),
         ("grant_type", "client_credentials"), ("scope", "hpe-tenant")]
        "https://idp.example/v1/token") ∧
    requestProtocol (createRequest
        [("client_id", "c1"), ("client_secret", "s1"),
         ("grant_type", "client_credentials"), ("scope", "hpe-tenant")]
        "https://idp.example/v1/token") =
      .formEncodedOAuth2 := by
  exact ⟨rfl, rfl, rfl, rfl⟩

/-- C5 amended: with no passed-in token, the vended-service-client
boolean selects the wire protocol — `false` always issues the JSON
tenant-credential request (the IAM version is never consulted), `true`
issues the form-encoded OAuth2 request, whose sub-case (`scope` and
URL suffix for `"glcs"`, bare identity URL for `"glp"`) is selected by
the IAM-version value. -/
theorem protocol_dispatch_amended :
    (∀ (u t c s v : String) (ins : Bool),
      ClientGenerateTokenPhase ⟨"", u, ins, false⟩ t c s v =
        .issuesRequest (identityRequest t c s u) ∧
      requestProtocol (identityRequest t c s u) = .jsonTenantCredential) ∧
    (∀ (u t c s : String) (ins : Bool),
      ClientGenerateTokenPhase ⟨"", u, ins, true⟩ t c s "glcs" =
        .issuesRequest (createRequest
          [("client_id", c), ("client_secret", s),
           ("grant_type", "client_credentials"), ("scope", "hpe-tenant")]
          (u ++ "/v1/token")) ∧
      ClientGenerateTokenPhase ⟨"", u, ins, true⟩ t c s "glp" =
        .issuesRequest (createRequest
          [("client_id", c), ("client_secret", s),
           ("grant_type", "client_credentials")] u) ∧
      (∀ ps url, requestProtocol (createRequest ps url) = .formEncodedOAuth2)) := by
  exact ⟨fun _ _ _ _ _ _ => ⟨rfl, rfl⟩,
         fun _ _ _ _ _ => ⟨rfl, rfl, fun _ _ => rfl⟩⟩

/-- C6: issuer-token request generation — for `"glcs"` the form
parameters `client_id`, `client_secret`, `grant_type=client_credentials`
and `scope=hpe-tenant` with URL `<identityURL>/v1/token`; for `"glp"`
the same parameters without `scope` and the identity URL itself; any
other IAM-version string yields the `invalid IAM version` error and no
parameters or URL. -/
theorem generate_params_and_url_spec :
    (∀ cid cs u : String,
      generateParamsAndURL cid cs u "glcs" =
        .ok ([("client_id", cid), ("client_secret", cs),
              ("grant_type", "client_credentials"), ("scope", "hpe-tenant")],
             u ++ "/v1/token") ∧
      generateParamsAndURL cid cs u "glp" =
        .ok ([("client_id", cid), ("client_secret", cs),
              ("grant_type", "client_credentials")], u)) ∧
    (∀ cid cs u v : String, v ≠ "glcs" → v ≠ "glp" →
      generateParamsAndURL cid cs u v = .error "invalid IAM version") := by
  refine ⟨fun _ _ _ => ⟨rfl, rfl⟩, ?_⟩
  intro cid cs u v hglcs hglp
  unfold generateParamsAndURL
  simp only [beq_iff_eq, IAMVersionGLCS, IAMVersionGLP]
  rw [if_neg hglcs, if_neg hglp]

/-- Closed witness for `generate_params_and_url_spec`: at the variant
`"invalid"` request generation fails, and at `"glcs"` it produces the
documented URL and parameters. -/
theorem generate_params_and_url_spec_witness :
    generateParamsAndURL "c1" "s1" "https://idp.example" "invalid" =
      .error "invalid IAM version" ∧
    generateParamsAndURL "c1" "s1" "https://idp.example" "glcs" =
      .ok ([("client_id", "c1"), ("client_secret", "s1"),
            ("grant_type", "client_credentials"), ("scope", "hpe-tenant")],
           "https://idp.example/v1/token") := by
  exact ⟨generate_params_and_url_spec.2 "c1" "s1" "https://idp.example" "invalid"
          (by decide) (by decide),
         (generate_params_and_url_spec.1 "c1" "s1" "https://idp.example").1⟩

/-- C7 counterexample: with the unrecognized IAM version `"bogus"`, a
client built by `New` with no passed-in token and the vended flag
`false` does NOT fail with a configuration error — it issues the JSON
tenant-credential HTTP request (the IAM version is ignored on that
path); and a client holding a passed-in token simply returns it. -/
theorem invalid_iam_version_not_always_config_error :
    ClientGenerateTokenPhase (New "https://idp.example" false false "")
        "t1" "c1" "s1" "bogus" =
      .issuesRequest (identityRequest "t1" "c1" "s1" "https://idp.example") ∧
    ClientGenerateTokenPhase (New "https://idp.example" false true "tok")
        "t1" "c1" "s1" "bogus" =
      .returnsPassedToken "tok" := by
  exact ⟨rfl, rfl⟩

/-- C7 amended: `New` always succeeds (it never sees the IAM version);
for a client with no passed-in token and the vended-service-client flag
set, every call with an IAM version other than `"glcs"` and `"glp"`
fails at call time with the `invalid IAM version` error, before issuing
any HTTP request. -/
theorem invalid_iam_version_fails_vended_calls :
    (∀ (u tok : String) (ins ven : Bool),
      New u ins ven tok =
        ⟨tok, trimRightSlashes u, ins, ven⟩) ∧
    (∀ (u t c s v : String) (ins : Bool), v ≠ "glcs" → v ≠ "glp" →
      ClientGenerateTokenPhase (New u ins true "") t c s v =
        .failsBeforeRequest "invalid IAM version") := by
  refine ⟨fun _ _ _ _ => rfl, ?_⟩
  intro u t c s v ins hglcs hglp
  have h := generate_params_and_url_spec.2 c s (trimRightSlashes u) v hglcs hglp
  simp [ClientGenerateTokenPhase, New, h]

/-- Closed witness for `invalid_iam_version_fails_vended_calls`: a
vended client with IAM version `"bogus"` fails before any request. -/
theorem invalid_iam_version_fails_vended_calls_witness :
    ClientGenerateTokenPhase (New "https://idp.example/" false true "")
        "t1" "c1" "s1" "bogus" =
      .failsBeforeRequest "invalid IAM version" := by
  exact invalid_iam_version_fails_vended_calls.2
    "https://idp.example/" "t1" "c1" "s1" "bogus" false (by decide) (by decide)

/-! ## Response bodies and the access-token extraction

After `DoRetries` and `ManageHTTPErrorCodes`, both variants read the
body, `json.Unmarshal` it into their `TokenResponse` struct and return
its `AccessToken` field.  `json.Unmarshal` (standard library) is passed
in as a parameter: on valid JSON it yields the struct, with absent
fields left at their zero values.
-/

/-- `issuertoken.TokenResponse` (issuertoken.go:22-27). -/
structure IssuerTokenResponse where
  TokenType : String
  ExpiresIn : Int
  AccessToken : String
  Scope : String
  deriving DecidableEq, Repr

/-- `identitytoken.TokenResponse` (the identitytoken package sources);
`Expiry` (a `time.Time`) is carried as its RFC3339 string. -/
structure IdentityTokenResponse where
  TokenType : String
  AccessToken : String
  RefreshToken : String
  Expiry : String
  ExpiresIn : Int
  Scope : String
  AccessTokenOnly : Bool
  deriving DecidableEq, Repr

/-- The tail of `issuertoken.GenerateToken` (issuertoken.go:74-91) once
a response came back from `DoRetries`: map the status through
`ManageHTTPErrorCodes`, read the body, unmarshal it, and return the
`AccessToken` field. -/
def issuerHandleResponse (unmarshal : String → Option IssuerTokenResponse)
    (resp : HTTPResponse) (clientID : String) : Except GLError String :=
  match ManageHTTPErrorCodes resp clientID with
  | some e => .error e
  | none =>
    match resp.Body with
    | .error e => .error (GLError.ioError e)
    | .ok body =>
      match unmarshal body with
      | none => .error (GLError.jsonError "json unmarshal error")
      | some token => .ok token.AccessToken

/-- The tail of `identitytoken.GenerateToken` (same shape as the issuer
variant, with its own `TokenResponse`). -/
def identityHandleResponse (unmarshal : String → Option IdentityTokenResponse)
    (resp : HTTPResponse) (clientID : String) : Except GLError String :=
  match ManageHTTPErrorCodes resp clientID with
  | some e => .error e
  | none =>
    match resp.Body with
    | .error e => .error (GLError.ioError e)
    | .ok body =>
      match unmarshal body with
      | none => .error (GLError.jsonError "json unmarshal error")
      | some token => .ok token.AccessToken

/-- C10: on a 200 response whose body unmarshals, both variants return
the `access_token` field with no error — whatever that field holds,
including the zero-value empty string left when the field is absent;
no failure is reported in that case. -/
theorem access_token_returned_verbatim :
    (∀ (unm : String → Option IssuerTokenResponse) (body cid : String)
       (tr : IssuerTokenResponse),
      unm body = some tr →
      issuerHandleResponse unm ⟨200, okBody body⟩ cid = .ok tr.AccessToken) ∧
    (∀ (unm : String → Option IdentityTokenResponse) (body cid : String)
       (tr : IdentityTokenResponse),
      unm body = some tr →
      identityHandleResponse unm ⟨200, okBody body⟩ cid = .ok tr.AccessToken) := by
  constructor
  · intro unm body cid tr h
    simp [issuerHandleResponse, ManageHTTPErrorCodes, okBody, h]
  · intro unm body cid tr h
    simp [identityHandleResponse, ManageHTTPErrorCodes, okBody, h]

/-- Closed witness for `access_token_returned_verbatim`: a valid-JSON
body with no `access_token` field unmarshals to the zero-value struct,
and both variants return the empty string with no error. -/
theorem access_token_returned_verbatim_witness :
    issuerHandleResponse (fun _ => some ⟨"", 0, "", ""⟩)
      ⟨200, okBody "\x7b\x7d"⟩ "cid" = .ok "" ∧
    identityHandleResponse (fun _ => some ⟨"", "", "", "", 0, "", false⟩)
      ⟨200, okBody "\x7b\x7d"⟩ "cid" = .ok "" := by
  exact ⟨access_token_returned_verbatim.1 (fun _ => some ⟨"", 0, "", ""⟩)
          "\x7b\x7d" "cid" ⟨"", 0, "", ""⟩ rfl,
         access_token_returned_verbatim.2 (fun _ => some ⟨"", "", "", "", 0, "", false⟩)
          "\x7b\x7d" "cid" ⟨"", "", "", "", 0, "", false⟩ rfl⟩

/-! ## Offline JWT decoding (`token-util.go:42-77, 188-199`)

`parseJWT` splits the compact serialization on `'.'` and base64url-
decodes the payload part (`base64.RawURLEncoding`: alphabet `A-Z a-z
0-9 - _`, no padding, an encoding whose length is 1 mod 4 is invalid).
`DecodeAccessToken` first runs `jose.ParseSigned` (external library,
abstracted as a predicate), then `parseJWT`, then `json.Unmarshal` of
the payload (abstracted), and rewrites the `Subject`.  On a `parseJWT`
or unmarshal failure the Go code calls `log.Fatalf` — which terminates
the whole process — before an unreachable `return` of the error value.
-/

/-- The value of a character in the base64url alphabet. -/
def b64urlVal (c : Char) : Option Nat :=
  if 'A' ≤ c ∧ c ≤ 'Z' then some (c.toNat - 65)
  else if 'a' ≤ c ∧ c ≤ 'z' then some (c.toNat - 97 + 26)
  else if '0' ≤ c ∧ c ≤ '9' then some (c.toNat - 48 + 52)
  else if c == '-' then some 62
  else if c == '_' then some 63
  else none

/-- Reassemble 6-bit values into bytes (`base64.RawURLEncoding` without
padding): 4 sextets give 3 bytes, a trailing pair gives 1 byte, a
trailing triple gives 2 bytes, a single trailing sextet is invalid. -/
def sextetsToBytes : List Nat → Option (List Nat)
  | [] => some []
  | [_] => none
  | [a, b] => some [a * 4 + b / 16]
  | [a, b, c] => some [a * 4 + b / 16, (b % 16) * 16 + c / 4]
  | a :: b :: c :: d :: rest =>
    match sextetsToBytes rest with
    | none => none
    | some bs =>
      some ((a * 4 + b / 16) :: ((b % 16) * 16 + c / 4) :: ((c % 4) * 64 + d) :: bs)

/-- `base64.RawURLEncoding.DecodeString` on the model level: decode each
character and reassemble, failing on any character outside the alphabet
or an invalid length. -/
def base64urlDecode (s : String) : Option (List Nat) :=
  match s.data.mapM b64urlVal with
  | none => none
  | some vals => sextetsToBytes vals

/-- `strings.Split(p, ".")` for the one-character separator `'.'`. -/
def splitOnDot : List Char → List (List Char)
  | [] => [[]]
  | c :: rest =>
    let r := splitOnDot rest
    if c == '.' then [] :: r
    else
      match r with
      | [] => [[c]]
      | h :: t => (c :: h) :: t

/-- `parseJWT` (token-util.go:188-199): split on `'.'`, require at least
two parts, and base64url-decode the second part into the payload
bytes. -/
def parseJWT (p : String) : Except String (List Nat) :=
  match splitOnDot p.data with
  | _ :: payloadB64 :: _ =>
    match base64urlDecode (String.mk payloadB64) with
    | none => .error "oidc: malformed jwt payload"
    | some payload => .ok payload
  | parts => .error ("oidc: malformed jwt, expected 3 parts got " ++ toString parts.length)

/-- `tokenutil.Token` (token-util.go:21-35) — the decoded claims.  The
Go field `Type` is rendered `Typ` because `Type` is reserved in Lean. -/
structure Token where
  Issuer : String
  Subject : String
  Expiry : Int
  IssuedAt : Int
  Typ : String
  Nonce : String
  AtHash : String
  ClientID : String
  UserID : String
  TenantID : String
  AuthorizedParty : String
  KeycloakClientID : String
  IsHPE : Bool
  deriving DecidableEq, Repr

/-- The `Subject` rewriting at the end of `DecodeAccessToken`
(token-util.go:66-74). -/
def fixSubject (token : Token) : Token :=
  if token.UserID ≠ "" then { token with Subject := "users/" ++ token.UserID }
  else if token.ClientID ≠ "" || token.KeycloakClientID ≠ "" then
    { token with Subject := "clients/" ++ token.Subject }
  else { token with Subject := "users/" ++ token.Subject }

/-- How a call to `DecodeAccessToken` ends: a decoded token, an error
value returned to the caller, or `log.Fatalf` — which exits the entire
process. -/
inductive DecodeOutcome where
  | ok (token : Token)
  | err (msg : String)
  | processExit (logMsg : String)
  deriving DecidableEq, Repr

/-- `DecodeAccessToken` (token-util.go:45-77).  `parseSigned` abstracts
`jose.ParseSigned` (external library), `unmarshal` abstracts
`json.Unmarshal` of the payload bytes into `Token`.  When `parseSigned`
fails, the error is returned; when `parseJWT` or the unmarshal fails,
the code calls `log.Fatalf` — modelled as `processExit` — and the
`return` statements after it are unreachable. -/
def DecodeAccessToken (parseSigned : String → Bool)
    (unmarshal : List Nat → Option Token) (rawToken : String) : DecodeOutcome :=
  if !parseSigned rawToken then .err "oidc: malformed jwt"
  else
    match parseJWT rawToken with
    | .error e => .processExit ("oidc: malformed jwt: " ++ e)
    | .ok payload =>
      match unmarshal payload with
      | none => .processExit "oidc: failed to unmarshal claims"
      | some token => .ok (fixSubject token)

/-- C8: `DecodeAccessToken` has a process-terminating path.  On the
well-formed JWS `eyJhbGciOiJIUzI1NiJ9.bm90anNvbg.c2ln` (header
`$\x7b"alg":"HS256"\x7d$`, payload decoding to the non-JSON bytes of
`notjson`), `jose.ParseSigned` and `parseJWT` succeed — the payload is
the byte string of `notjson` — but the claims unmarshal fails, and the
call ends in `log.Fatalf`, i.e. process exit, instead of returning the
decode error to the caller. -/
theorem decode_access_token_fatal_path :
    parseJWT "eyJhbGciOiJIUzI1NiJ9.bm90anNvbg.c2ln" =
      .ok [110, 111, 116, 106, 115, 111, 110] ∧
    DecodeAccessToken (fun _ => true) (fun _ => none)
      "eyJhbGciOiJIUzI1NiJ9.bm90anNvbg.c2ln" =
      .processExit "oidc: failed to unmarshal claims" := by
  exact ⟨rfl, rfl⟩

/-! ## The token-handler channel protocol -/

/-- `common.Result` — the token/error pair sent on the result channel. -/
structure Result where
  Token : String
  Err : Option String
  deriving DecidableEq, Repr

/-- What the consumer side does at the handler's rendezvous point:
receive the offered Result from the result channel, or send the exit
signal on the exit channel. -/
inductive ConsumerAction where
  | receive
  | signalExit
  deriving DecidableEq, Repr

/-- The handler loop's state: offering its `i`-th Result in the select
over the blocking send and the exit channel, or exited. -/
inductive LoopState where
  | offering (i : Nat)
  | exited
  deriving DecidableEq, Repr

/-- An externally observable event of the loop. -/
inductive LoopEvent where
  | published (r : Result)
  | exitReceived
  deriving DecidableEq, Repr

/-- Modelled from the spec: the token-handler goroutine itself (the
`pkg/token` handler packages described in the repository README and
spec section 4.1) is not among the given sources.  Per the README, each
iteration presents one Result on the result channel with a blocking
send while simultaneously listening on the exit channel; a consumer
receive lets the loop move to its next Result, and an exit signal
terminates the loop. -/
def handlerStep (results : Nat → Result) :
    LoopState → ConsumerAction → LoopState × Option LoopEvent
  | .offering i, .receive => (.offering (i + 1), some (.published (results i)))
  | .offering _, .signalExit => (.exited, some .exitReceived)
  | .exited, _ => (.exited, none)

/-- The events the loop emits from a state under a sequence of consumer
actions. -/
def handlerTrace (results : Nat → Result) : LoopState → List ConsumerAction → List LoopEvent
  | _, [] => []
  | s, a :: rest =>
    match handlerStep results s a with
    | (s2, none) => handlerTrace results s2 rest
    | (s2, some e) => e :: handlerTrace results s2 rest

/-- The number of Results published in an event list. -/
def publishCount (evs : List LoopEvent) : Nat :=
  (evs.filter fun e => match e with | .published _ => true | _ => false).length

/-- The number of consumer receives in an action list. -/
def receiveCount (acts : List ConsumerAction) : Nat :=
  (acts.filter fun a => match a with | .receive => true | _ => false).length

/-- From the exited state the loop emits nothing, ever. -/
theorem handlerTrace_exited (results : Nat → Result) :
    ∀ acts : List ConsumerAction, handlerTrace results .exited acts = [] := by
  intro acts
  induction acts with
  | nil => rfl
  | cons a rest ih => cases a <;> simpa [handlerTrace, handlerStep] using ih

/-- Each published Result is matched by a consumer receive: the loop
cannot emit more Results than the consumer has received. -/
theorem publishCount_le_receiveCount (results : Nat → Result) :
    ∀ (acts : List ConsumerAction) (s : LoopState),
      publishCount (handlerTrace results s acts) ≤ receiveCount acts := by
  intro acts
  induction acts with
  | nil => intro s; cases s <;> simp [handlerTrace, publishCount, receiveCount]
  | cons a rest ih =>
    intro s
    cases s with
    | offering i =>
      cases a with
      | receive =>
        simpa [handlerTrace, handlerStep, publishCount, receiveCount, List.filter]
          using ih (.offering (i + 1))
      | signalExit =>
        have h := handlerTrace_exited results rest
        simp [handlerTrace, handlerStep, publishCount, receiveCount, List.filter, h]
    | exited =>
      have h := handlerTrace_exited results (a :: rest)
      simp only [h, publishCount, List.filter, List.length_nil]
      exact Nat.zero_le _

/-- C9: the handler publishes Results only against matching consumer
receives — it never runs ahead of the consumer, so at most one Result
is ever outstanding — and an exit signal terminates the loop
irrevocably: whatever actions follow the exit signal, the trace is
exactly the trace up to and including the exit, and no Result is ever
published after it. -/
theorem handler_blocking_send_and_exit :
    (∀ (results : Nat → Result) (acts : List ConsumerAction) (i : Nat),
      publishCount (handlerTrace results (.offering i) acts) ≤ receiveCount acts) ∧
    (∀ (results : Nat → Result) (pre post : List ConsumerAction) (i : Nat),
      handlerTrace results (.offering i) (pre ++ ConsumerAction.signalExit :: post) =
        handlerTrace results (.offering i) (pre ++ [ConsumerAction.signalExit])) := by
  constructor
  · intro results acts i
    exact publishCount_le_receiveCount results acts (.offering i)
  · intro results pre
    induction pre with
    | nil =>
      intro post i
      simp [handlerTrace, handlerStep, handlerTrace_exited]
    | cons a rest ih =>
      intro post i
      cases a with
      | receive => simpa [handlerTrace, handlerStep] using ih post (i + 1)
      | signalExit => simp [handlerTrace, handlerStep, handlerTrace_exited]

end HpeglToken
